import Mathlib

/-!
Shallow embedding of `scripts/raw_json_downloads/_common.py` from the
fcat-data-tracker repository: the retry-and-classify download pipeline
(throttle, retry wrapper, URL rewriting helpers, response classifier and
the per-dataset download orchestrator), together with proofs about it.

Modelling conventions:
* JSON-decoded Python values are the inductive `Json` (numbers as `Int`;
  no claim here depends on float payloads).
* Python exceptions raised by the embedded code are surfaced as
  `Except PyErr _`; a captured exception object held in a variable is the
  inductive `Exc`.
* `time.monotonic` / `time.sleep` are modelled by an explicit rational
  clock threaded through `throttle`, with nonnegative drift parameters
  standing for the time that passes around each clock read.
* URLs are modelled at the granularity `urllib.parse.urlparse` produces:
  a component record whose query is an association list, as returned by
  `parse_qs(..., keep_blank_values=True)` (which never produces an empty
  value list; theorems about URL helpers carry that invariant).
-/

/-- Python `dict` lookup (first match; `parse_qs` and JSON objects keep keys unique). -/
def assocLookup {α : Type} : List (String × α) → String → Option α
  | [], _ => none
  | p :: rest, k => if p.1 = k then some p.2 else assocLookup rest k

/-- Python `dict[k] = v`: replace in place when the key exists, else append. -/
def assocUpdate {α : Type} : List (String × α) → String → α → List (String × α)
  | [], k, v => [(k, v)]
  | p :: rest, k, v => if p.1 = k then (k, v) :: rest else p :: assocUpdate rest k v

/-- JSON-decoded Python value (payloads of the downloader). -/
inductive Json where
  | null : Json
  | bool (b : Bool) : Json
  | num (n : Int) : Json
  | str (s : String) : Json
  | arr (items : List Json) : Json
  | obj (fields : List (String × Json)) : Json

/-- Python exception kinds that the embedded code can raise. -/
inductive PyErr where
  | attributeError
  | typeError
  | keyError
  | indexError
  | valueError
deriving DecidableEq

/-- Captured exception values flowing through the pipeline:
`RetryableRequestError` (with its optional `status_code`),
`requests.RequestException`, and any other exception. -/
inductive Exc where
  | retryable (msg : String) (statusCode : Option Int)
  | requestExc (msg : String)
  | other (msg : String)
deriving DecidableEq

/-- Python `str(exception)`: the message the exception was built from. -/
def excStr : Exc → String
  | Exc.retryable m _ => m
  | Exc.requestExc m => m
  | Exc.other m => m

/-- `retry_if_exception_type((requests.RequestException, RetryableRequestError))`. -/
def isRetryableExcType : Exc → Bool
  | Exc.retryable _ _ => true
  | Exc.requestExc _ => true
  | Exc.other _ => false

/-- Python truthiness of a JSON-decoded value (`if not series:`). -/
def jsonFalsy : Json → Bool
  | Json.null => true
  | Json.bool b => !b
  | Json.num n => n == 0
  | Json.str s => s == ""
  | Json.arr items => items.isEmpty
  | Json.obj fields => fields.isEmpty

/-- `isinstance(v, list) and len(v) == 0`. -/
def jsonIsEmptyList : Json → Bool
  | Json.arr [] => true
  | _ => false

/-- `d.get(k, default)` on a value known to be a dict. -/
def jGetD (fields : List (String × Json)) (k : String) (dflt : Json) : Json :=
  (assocLookup fields k).getD dflt

/-- Python `v.get(k, default)`: raises `AttributeError` when `v` is not a dict. -/
def pyGet (v : Json) (k : String) (dflt : Json) : Except PyErr Json :=
  match v with
  | Json.obj fields => Except.ok ((assocLookup fields k).getD dflt)
  | _ => Except.error PyErr.attributeError

/-- Python `v[0]` on a JSON-decoded value: first element of a list, first
character of a string, `KeyError` on a dict (JSON object keys are strings,
never `0`), `IndexError` on empty sequences, `TypeError` otherwise. -/
def pyIndex0 : Json → Except PyErr Json
  | Json.arr (x :: _) => Except.ok x
  | Json.arr [] => Except.error PyErr.indexError
  | Json.str s =>
    match s.data with
    | c :: _ => Except.ok (Json.str (String.mk [c]))
    | [] => Except.error PyErr.indexError
  | Json.obj _ => Except.error PyErr.keyError
  | _ => Except.error PyErr.typeError

/-- `Classification` record produced by `_classify_result`. -/
structure Classification where
  status : String
  errorType : String
  recommendedAction : String
  message : String
deriving DecidableEq

/-- `_is_no_data_response(source_type, payload)` (lines 277-296).
The `bls` branch mirrors `payload.get("Results", {}).get("series", [])`
followed by `series[0].get("data", [])`, both of which can raise. -/
def isNoDataResponse (sourceType : String) (payload : Json) : Except PyErr Bool :=
  if sourceType = "fred" then
    match payload with
    | Json.obj fields => Except.ok (jsonIsEmptyList (jGetD fields "observations" Json.null))
    | _ => Except.ok false
  else if sourceType = "bls" then
    match payload with
    | Json.obj fields =>
      match pyGet (jGetD fields "Results" (Json.obj [])) "series" (Json.arr []) with
      | Except.error e => Except.error e
      | Except.ok series =>
        if jsonFalsy series then Except.ok true
        else
          match pyIndex0 series with
          | Except.error e => Except.error e
          | Except.ok firstSeries =>
            match pyGet firstSeries "data" (Json.arr []) with
            | Except.error e => Except.error e
            | Except.ok data => Except.ok (jsonIsEmptyList data)
    | _ => Except.ok false
  else if sourceType = "coingecko" then
    match payload with
    | Json.obj fields => Except.ok (jsonIsEmptyList (jGetD fields "prices" Json.null))
    | _ => Except.ok false
  else if sourceType = "census" then
    match payload with
    | Json.arr items => Except.ok (decide (items.length ≤ 1))
    | _ => Except.ok false
  else Except.ok false

/-- `_classify_result(source_type, status_code, payload, exception)` (lines 299-396). -/
def classifyResult (sourceType : String) (statusCode : Option Int) (payload : Json)
    (exc : Option Exc) : Except PyErr Classification :=
  match exc with
  | some e =>
    Except.ok (match e with
      | Exc.retryable _ sc =>
        if sc = some 429 then
          ⟨"error", "rate_limited", "retry_later", "Rate limit persisted after retries."⟩
        else if sc = some 500 ∨ sc = some 502 ∨ sc = some 503 ∨ sc = some 504 then
          ⟨"error", "upstream_server_error", "retry_later",
            "Upstream server errors persisted after retries."⟩
        else
          ⟨"error", "transient_retries_exhausted", "retry_later", excStr e⟩
      | _ => ⟨"error", "transient_retries_exhausted", "retry_later", excStr e⟩)
  | none =>
    match statusCode with
    | none =>
      Except.ok ⟨"error", "malformed_or_missing_config", "fix_request",
        "Missing required dataset URL or configuration."⟩
    | some c =>
      if 200 ≤ c ∧ c < 300 then
        match isNoDataResponse sourceType payload with
        | Except.error e => Except.error e
        | Except.ok noData =>
          if noData then
            Except.ok ⟨"error", "no_data_in_range", "accept_or_change_time_range",
              "Request succeeded but the API returned no data for this year."⟩
          else Except.ok ⟨"ok", "", "none", "Success"⟩
      else if c = 400 then
        Except.ok ⟨"error", "malformed_request", "fix_request",
          "API rejected request format or parameters."⟩
      else if c = 401 ∨ c = 403 then
        Except.ok ⟨"error", "auth_or_access", "check_api_key_or_permissions",
          "Authentication/authorization failed."⟩
      else if c = 404 then
        Except.ok ⟨"error", "dataset_not_found", "fix_request",
          "Dataset endpoint or series was not found."⟩
      else if c = 429 then
        Except.ok ⟨"error", "rate_limited", "retry_later", "Rate limit hit after retries."⟩
      else if 500 ≤ c ∧ c < 600 then
        Except.ok ⟨"error", "upstream_server_error", "retry_later",
          "Upstream server error after retries."⟩
      else
        Except.ok ⟨"error", "unexpected_status", "inspect_response",
          "Unexpected status code " ++ toString c⟩

/-- `START_YEAR = 1995`. -/
def START_YEAR : Nat := 1995

/-- `END_YEAR = 2026`. -/
def END_YEAR : Nat := 2026

/-- `MAX_ATTEMPTS = 6`. -/
def MAX_ATTEMPTS : Nat := 6

/-- `RETRYABLE_STATUS_CODES = {429, 500, 502, 503, 504}`. -/
def RETRYABLE_STATUS_CODES : List Int := [429, 500, 502, 503, 504]

/-- `RATE_LIMIT_SECONDS` (seconds, as rationals). -/
def rateLimitSeconds : List (String × ℚ) :=
  [("fred", 3/5), ("bls", 4/5), ("coingecko", 8/5), ("oecd", 6/5),
   ("ecb", 4/5), ("census", 4/5), ("imf", 1)]

/-- `RATE_LIMIT_SECONDS.get(source_type, 0.6)`. -/
def minDelayFor (sourceType : String) : ℚ :=
  (assocLookup rateLimitSeconds sourceType).getD (3/5)

/-- Throttle state: the monotonic clock value and `_LAST_REQUEST_TS`. -/
structure ThrottleState where
  clock : ℚ
  lastRequestTs : List (String × ℚ)

/-- The amount `_throttle` sleeps, given the clock value observed by its
`time.monotonic()` call (`preDrift` is the ambient time that passed before
that read). -/
def throttleSleep (sourceType : String) (s : ThrottleState) (preDrift : ℚ) : ℚ :=
  match assocLookup s.lastRequestTs sourceType with
  | none => 0
  | some last =>
    if s.clock + preDrift - last < minDelayFor sourceType then
      minDelayFor sourceType - (s.clock + preDrift - last)
    else 0

/-- `_throttle(source_type)` (lines 89-97). The clock advances by the
ambient drift before the first `time.monotonic()` read, by the sleep, and
by `postDrift` before the second `time.monotonic()` read whose value is
stored into `_LAST_REQUEST_TS[source_type]`. -/
def throttle (sourceType : String) (s : ThrottleState) (preDrift postDrift : ℚ) :
    ThrottleState :=
  let fin := s.clock + preDrift + throttleSleep sourceType s preDrift + postDrift
  { clock := fin, lastRequestTs := assocUpdate s.lastRequestTs sourceType fin }

/-- An HTTP response as far as `_request_with_retries` inspects it. -/
structure HttpResponse where
  statusCode : Int
  body : Json

/-- One behaviour of `session.request` at a given attempt: a completed
response, or a raised exception. -/
inductive HttpOutcome where
  | resp (r : HttpResponse)
  | raises (e : Exc)

/-- The body of one attempt of the `Retrying` loop (lines 113-121): a
response with a status in `RETRYABLE_STATUS_CODES` is turned into a raised
`RetryableRequestError`; any other response is returned. -/
def singleAttempt (call : Nat → HttpOutcome) (i : Nat) : Except Exc HttpResponse :=
  match call i with
  | HttpOutcome.resp r =>
    if r.statusCode ∈ RETRYABLE_STATUS_CODES then
      Except.error (Exc.retryable ("retryable status code " ++ toString r.statusCode)
        (some r.statusCode))
    else Except.ok r
  | HttpOutcome.raises e => Except.error e

/-- The tenacity `Retrying` loop with `stop_after_attempt`, selective retry
on `(requests.RequestException, RetryableRequestError)` and `reraise=True`,
returning the result together with how many attempts were executed.
`i` is the index of the next attempt, `n` the number of attempts the stop
condition still allows. -/
def retryLoopCounted (call : Nat → HttpOutcome) : Nat → Nat → Except Exc HttpResponse × Nat
  | _, 0 => (Except.error (Exc.other "Unexpected retry loop termination"), 0)
  | i, n + 1 =>
    match singleAttempt call i with
    | Except.ok r => (Except.ok r, 1)
    | Except.error e =>
      if isRetryableExcType e ∧ n ≠ 0 then
        let rest := retryLoopCounted call (i + 1) n
        (rest.1, rest.2 + 1)
      else (Except.error e, 1)

/-- `_request_with_retries` (lines 100-123), as a function of the behaviour
of the underlying `session.request` call at each attempt. -/
def requestWithRetries (call : Nat → HttpOutcome) : Except Exc HttpResponse :=
  (retryLoopCounted call 0 MAX_ATTEMPTS).1

/-- How many times `_request_with_retries` executes its attempt body. -/
def requestAttemptCount (call : Nat → HttpOutcome) : Nat :=
  (retryLoopCounted call 0 MAX_ATTEMPTS).2

/-- A URL at the granularity of `urllib.parse.urlparse`: the six components,
with the query held as `parse_qs(query, keep_blank_values=True)` would
return it. `urlunparse`/`urlencode(query, doseq=True)` reassembly is the
identity at this granularity. -/
structure UrlParts where
  scheme : String
  netloc : String
  path : String
  paramsPart : String
  fragment : String
  query : List (String × List String)
deriving DecidableEq

/-- Occurrence of `pat` at the head of `hay`. -/
def headOccurs : List Char → List Char → Bool
  | [], _ => true
  | _ :: _, [] => false
  | p :: ps, c :: cs => p == c && headOccurs ps cs

/-- Occurrence of `pat` anywhere in `hay` (`pat in hay` for Python strings). -/
def subOccurs (pat : List Char) : List Char → Bool
  | [] => headOccurs pat []
  | c :: cs => headOccurs pat (c :: cs) || subOccurs pat cs

/-- Python `needle in s` for strings. -/
def strContains (s needle : String) : Bool := subOccurs needle.data s.data

/-- `query.get("startPeriod", ["YYYY"])[0]`. (`parse_qs` never produces an
empty value list, so the `some []` case is unreachable on parsed URLs;
theorems about this helper carry that invariant.) -/
def startTemplateOf (u : UrlParts) : String :=
  match assocLookup u.query "startPeriod" with
  | some (v :: _) => v
  | some [] => ""
  | none => "YYYY"

/-- `_set_period_params(url, year)` (lines 126-142). -/
def setPeriodParams (u : UrlParts) (year : Nat) : UrlParts :=
  let tmpl := startTemplateOf u
  let q :=
    if strContains tmpl "-Q" then
      assocUpdate (assocUpdate u.query "startPeriod" [toString year ++ "-Q1"])
        "endPeriod" [toString year ++ "-Q4"]
    else if strContains tmpl "-M" then
      assocUpdate (assocUpdate u.query "startPeriod" [toString year ++ "-M01"])
        "endPeriod" [toString year ++ "-M12"]
    else
      assocUpdate (assocUpdate u.query "startPeriod" [toString year])
        "endPeriod" [toString year]
  { u with query := q }

/-- Dataset metadata block written into every artifact and the summary. -/
structure Metadata where
  group : String
  datasetName : String
  sourceType : String
  datasetId : String
  startYear : Nat
  endYear : Nat
deriving DecidableEq

/-- `summary["totals"]`. -/
structure Totals where
  ok : Nat
  error : Nat
deriving DecidableEq

/-- One entry of `summary["years"]`. -/
structure YearStatusEntry where
  year : Nat
  status : String
  errorType : String
  recommendedAction : String
deriving DecidableEq

/-- One entry of `summary["errors"]`. -/
structure ErrorEntry where
  year : Nat
  errorType : String
  recommendedAction : String
  message : String
  request : Json

/-- The per-year JSON artifact written to `{year}.json`. -/
structure YearArtifact where
  metadata : Metadata
  year : Nat
  request : Json
  status : String
  errorType : String
  recommendedAction : String
  message : String
  response : Json

/-- `DatasetSummary`. -/
structure Summary where
  metadata : Metadata
  totals : Totals
  errors : List ErrorEntry
  years : List YearStatusEntry

/-- A `_write_json` call performed by the orchestrator. -/
inductive WriteEvent where
  | yearFile (year : Nat) (art : YearArtifact)
  | summaryFile (s : Summary)

/-- Behaviour of the per-year adapter call `handler(session, dataset_id, year)`:
a returned `(payload, request_metadata, status_code)` triple, or a raised
exception. -/
inductive AdapterOutcome where
  | triple (payload : Json) (requestMeta : Json) (statusCode : Option Int)
  | raises (e : Exc)

/-- The `try`/`except` around the handler call (lines 436-445): on an
exception, `payload` stays `None`, `request_meta` stays `{}`, `status_code`
stays `None`, and the exception is captured. -/
def adapterInvoke (beh : Nat → AdapterOutcome) (year : Nat) :
    Json × Json × Option Int × Option Exc :=
  match beh year with
  | AdapterOutcome.triple p m c => (p, m, c, none)
  | AdapterOutcome.raises e => (Json.null, Json.obj [], none, some e)

/-- One iteration of the year loop of `download_dataset` (lines 436-486):
invoke and classify, write the year artifact, accumulate into the summary.
`_classify_result` is called outside the `try` block, so an exception it
raises propagates (aborting the whole download). -/
def processYear (sourceType : String) (beh : Nat → AdapterOutcome) (meta : Metadata)
    (year : Nat) (acc : Summary × List WriteEvent) :
    Except PyErr (Summary × List WriteEvent) :=
  let got := adapterInvoke beh year
  match classifyResult sourceType got.2.2.1 got.1 got.2.2.2 with
  | Except.error e => Except.error e
  | Except.ok result =>
    let art := WriteEvent.yearFile year
      { metadata := meta, year := year, request := got.2.1, status := result.status,
        errorType := result.errorType, recommendedAction := result.recommendedAction,
        message := result.message, response := got.1 }
    let s := acc.1
    let s1 :=
      if result.status = "ok" then
        { s with totals := { s.totals with ok := s.totals.ok + 1 } }
      else
        { s with
          totals := { s.totals with error := s.totals.error + 1 }
          errors := s.errors ++
            [{ year := year, errorType := result.errorType,
               recommendedAction := result.recommendedAction,
               message := result.message, request := got.2.1 }] }
    Except.ok
      ({ s1 with
         years := s1.years ++
          [{ year := year, status := result.status, errorType := result.errorType,
             recommendedAction := result.recommendedAction }] },
        acc.2 ++ [art])

/-- Sequential iteration over the remaining years. -/
def runYears (sourceType : String) (beh : Nat → AdapterOutcome) (meta : Metadata) :
    List Nat → Summary × List WriteEvent → Except PyErr (Summary × List WriteEvent)
  | [], acc => Except.ok acc
  | y :: ys, acc =>
    match processYear sourceType beh meta y acc with
    | Except.error e => Except.error e
    | Except.ok acc1 => runYears sourceType beh meta ys acc1

/-- `range(START_YEAR, END_YEAR + 1)`. -/
def yearRange : List Nat := (List.range (END_YEAR + 1 - START_YEAR)).map (START_YEAR + ·)

/-- The source types `download_dataset` has a handler for. -/
def supportedSources : List String :=
  ["fred", "bls", "coingecko", "oecd", "ecb", "census", "imf"]

/-- The summary before the first year is processed (lines 427-432). -/
def initialSummary (meta : Metadata) : Summary :=
  { metadata := meta, totals := ⟨0, 0⟩, errors := [], years := [] }

/-- `download_dataset(group, dataset_name, source_type, dataset_id)`
(lines 399-492), as a function of the adapter behaviour per year: an
unsupported source type raises `ValueError`; otherwise every year in
`yearRange` is processed in order and the summary is written after the
last year and returned. -/
def downloadDataset (group datasetName sourceType datasetId : String)
    (beh : Nat → AdapterOutcome) : Except PyErr (Summary × List WriteEvent) :=
  if sourceType ∈ supportedSources then
    let meta : Metadata :=
      { group := group, datasetName := datasetName, sourceType := sourceType,
        datasetId := datasetId, startYear := START_YEAR, endYear := END_YEAR }
    match runYears sourceType beh meta yearRange (initialSummary meta, []) with
    | Except.error e => Except.error e
    | Except.ok (s, ws) => Except.ok (s, ws ++ [WriteEvent.summaryFile s])
  else Except.error PyErr.valueError

/-- Witness fixture: an HTTP call that always completes with status 503. -/
def wCall503 : Nat → HttpOutcome := fun _ => HttpOutcome.resp ⟨503, Json.null⟩

/-- Witness fixture: an adapter that always raises a transport error. -/
def wBehRaise : Nat → AdapterOutcome := fun _ => AdapterOutcome.raises (Exc.requestExc "connection reset")

/-- Witness fixture: the run of `downloadDataset` on `wBehRaise`. -/
def wRun : Except PyErr (Summary × List WriteEvent) :=
  downloadDataset "economy" "us_gdp" "fred" "GDP" wBehRaise

/-- Witness fixture: the summary of `wRun` (its error branch is unreachable). -/
def wSummary : Summary :=
  match wRun with
  | Except.ok (s, _) => s
  | Except.error _ => initialSummary ⟨"", "", "", "", 0, 0⟩

/-- Witness fixture: the write trace of `wRun`. -/
def wWrites : List WriteEvent :=
  match wRun with
  | Except.ok (_, ws) => ws
  | Except.error _ => []

/-- Witness fixture: an OECD dataset URL with a quarterly startPeriod template. -/
def wOecdUrl : UrlParts :=
  ⟨"https", "sdmx.oecd.org", "/public/rest/data/QNA", "", "",
    [("startPeriod", ["2015-Q1"]), ("dimensionAtObservation", ["AllDimensions"])]⟩

/-- Running invariant of the accumulated `DatasetSummary`: totals match the
per-year entries, and the error list holds exactly one entry per non-ok year. -/
def summaryInv (s : Summary) : Prop :=
  s.totals.ok + s.totals.error = s.years.length ∧
  s.errors.length = s.totals.error ∧
  s.errors.map ErrorEntry.year =
    (s.years.filter (fun e => e.status != "ok")).map YearStatusEntry.year ∧
  s.totals.ok = (s.years.filter (fun e => e.status == "ok")).length

/-- The claim's "value present and an empty list" condition on a field lookup. -/
def isPresentEmptyList (o : Option Json) : Bool :=
  match o with
  | some (Json.arr []) => true
  | _ => false

/-- The claim's bls "first series element's `data` list is empty" condition;
the `data` value defaults to an empty list when absent, as in the code's
`series[0].get("data", [])`. -/
def isDataEmptyAt (sfields : List (String × Json)) : Bool :=
  match assocLookup sfields "data" with
  | some v => jsonIsEmptyList v
  | none => true

/-- The per-source "empty result" heuristic, written from the claim's words:
fred — `observations` present and an empty list; bls — `Results.series`
missing or empty, where "empty" is the code's truthiness test (null, false,
0, empty string, empty list, empty dict), or the first series element's
`data` list empty; coingecko — `prices` present and an empty list; census —
a list of length at most 1; oecd, ecb, imf — never empty. -/
def specEmptyHeuristic (sourceType : String) (payload : Json) : Bool :=
  if sourceType = "fred" then
    match payload with
    | Json.obj fields => isPresentEmptyList (assocLookup fields "observations")
    | _ => false
  else if sourceType = "bls" then
    match payload with
    | Json.obj fields =>
      (match assocLookup fields "Results" with
       | none => true
       | some (Json.obj rfields) =>
         (match assocLookup rfields "series" with
          | none => true
          | some series =>
            if jsonFalsy series then true
            else
              match series with
              | Json.arr (Json.obj sfields :: _) => isDataEmptyAt sfields
              | _ => false)
       | some _ => false)
    | _ => false
  else if sourceType = "coingecko" then
    match payload with
    | Json.obj fields => isPresentEmptyList (assocLookup fields "prices")
    | _ => false
  else if sourceType = "census" then
    match payload with
    | Json.arr items => decide (items.length ≤ 1)
    | _ => false
  else false

/-- The payloads on which the classifier's bls field accesses do not raise:
everything except a bls dict payload whose `Results` value is a non-dict, or
whose truthy `Results.series` value is not a list with a dict first element.
This is the domain restriction forced by the
`classify_bls_results_nondict_raises` counterexample. -/
def blsAccessSafe (sourceType : String) (payload : Json) : Bool :=
  if sourceType = "bls" then
    match payload with
    | Json.obj fields =>
      (match jGetD fields "Results" (Json.obj []) with
       | Json.obj rfields =>
         (let series := jGetD rfields "series" (Json.arr [])
          if jsonFalsy series then true
          else
            match series with
            | Json.arr (Json.obj _ :: _) => true
            | _ => false)
       | _ => false)
    | _ => true
  else true


/-- Updating a key makes it present with the new value. -/
theorem assocLookup_update_self {α : Type} (q : List (String × α)) (k : String) (v : α) :
    assocLookup (assocUpdate q k v) k = some v := by
  induction q with
  | nil => simp [assocUpdate, assocLookup]
  | cons p rest ih =>
    by_cases h : p.1 = k
    · simp [assocUpdate, assocLookup, h]
    · simp [assocUpdate, assocLookup, h, ih]

/-- Updating one key leaves every other key unchanged. -/
theorem assocLookup_update_other {α : Type} (q : List (String × α)) (k k' : String) (v : α)
    (h : k' ≠ k) : assocLookup (assocUpdate q k v) k' = assocLookup q k' := by
  have hne : ¬ k = k' := fun hh => h hh.symm
  induction q with
  | nil => simp [assocUpdate, assocLookup, hne]
  | cons p rest ih =>
    by_cases hp : p.1 = k
    · simp [assocUpdate, assocLookup, hp, hne]
    · simp [assocUpdate, assocLookup, hp, ih]

/-- C2: when a captured exception is present, `_classify_result` ignores
`status_code` and `payload`: a `RetryableRequestError` carrying status 429
classifies as `rate_limited`/`retry_later`; one carrying a status in
{500, 502, 503, 504} as `upstream_server_error`/`retry_later`; any other
captured exception as `transient_retries_exhausted`/`retry_later` with
message `str(exception)`. -/
theorem classify_exception_priority (sourceType : String) (statusCode : Option Int)
    (payload : Json) (e : Exc) :
    (∀ m, e = Exc.retryable m (some 429) →
      classifyResult sourceType statusCode payload (some e) =
        Except.ok ⟨"error", "rate_limited", "retry_later",
          "Rate limit persisted after retries."⟩)
    ∧ (∀ m s, e = Exc.retryable m (some s) → (s = 500 ∨ s = 502 ∨ s = 503 ∨ s = 504) →
      classifyResult sourceType statusCode payload (some e) =
        Except.ok ⟨"error", "upstream_server_error", "retry_later",
          "Upstream server errors persisted after retries."⟩)
    ∧ ((∀ m s, e = Exc.retryable m (some s) →
          s ≠ 429 ∧ s ≠ 500 ∧ s ≠ 502 ∧ s ≠ 503 ∧ s ≠ 504) →
      classifyResult sourceType statusCode payload (some e) =
        Except.ok ⟨"error", "transient_retries_exhausted", "retry_later", excStr e⟩) := by
  refine ⟨?_, ?_, ?_⟩
  · rintro m rfl
    rfl
  · rintro m s rfl hs
    rcases hs with rfl | rfl | rfl | rfl <;> rfl
  · intro h
    match e with
    | Exc.retryable m sc =>
      match sc with
      | none => rfl
      | some s =>
        obtain ⟨h1, h2, h3, h4, h5⟩ := h m s rfl
        simp [classifyResult, h1, h2, h3, h4, h5]
    | Exc.requestExc m => rfl
    | Exc.other m => rfl

/-- C2 witness: a non-retryable exception classifies as
`transient_retries_exhausted` with its own message. -/
theorem classify_exception_priority_witness :
    classifyResult "fred" (some 200) Json.null (some (Exc.other "boom")) =
      Except.ok ⟨"error", "transient_retries_exhausted", "retry_later", "boom"⟩ :=
  (classify_exception_priority "fred" (some 200) Json.null (Exc.other "boom")).2.2
    (fun _ _ h => nomatch h)

/-- C4: with no captured exception, `_classify_result` maps a missing
status code to `malformed_or_missing_config`/`fix_request`, and a non-2xx
status code through the fixed table 400 ↦ `malformed_request`,
401/403 ↦ `auth_or_access`, 404 ↦ `dataset_not_found`, 429 ↦ `rate_limited`,
5xx ↦ `upstream_server_error`, anything else ↦ `unexpected_status`. -/
theorem classify_status_mapping (sourceType : String) (payload : Json) (c : Int)
    (hne : ¬ (200 ≤ c ∧ c < 300)) :
    classifyResult sourceType none payload none =
      Except.ok ⟨"error", "malformed_or_missing_config", "fix_request",
        "Missing required dataset URL or configuration."⟩
    ∧ classifyResult sourceType (some c) payload none =
      Except.ok
        (if c = 400 then
          ⟨"error", "malformed_request", "fix_request",
            "API rejected request format or parameters."⟩
         else if c = 401 ∨ c = 403 then
          ⟨"error", "auth_or_access", "check_api_key_or_permissions",
            "Authentication/authorization failed."⟩
         else if c = 404 then
          ⟨"error", "dataset_not_found", "fix_request",
            "Dataset endpoint or series was not found."⟩
         else if c = 429 then
          ⟨"error", "rate_limited", "retry_later", "Rate limit hit after retries."⟩
         else if 500 ≤ c ∧ c < 600 then
          ⟨"error", "upstream_server_error", "retry_later",
            "Upstream server error after retries."⟩
         else
          ⟨"error", "unexpected_status", "inspect_response",
            "Unexpected status code " ++ toString c⟩) := by
  constructor
  · rfl
  · simp only [classifyResult, if_neg hne, apply_ite Except.ok]

/-- C4 witness: status 404 with no exception classifies as
`dataset_not_found`/`fix_request`. -/
theorem classify_status_mapping_witness :
    classifyResult "fred" none Json.null none =
      Except.ok ⟨"error", "malformed_or_missing_config", "fix_request",
        "Missing required dataset URL or configuration."⟩
    ∧ classifyResult "fred" (some 404) Json.null none =
      Except.ok ⟨"error", "dataset_not_found", "fix_request",
        "Dataset endpoint or series was not found."⟩ := by
  have h := classify_status_mapping "fred" Json.null 404 (by decide)
  exact ⟨h.1, h.2.trans (by rfl)⟩

/-- C3 fails on the code: for source type `bls` and a 2xx status, a payload
whose `Results` value is not a dict makes `_classify_result` raise
`AttributeError` (from `payload.get("Results", {}).get("series", [])`)
instead of returning a classification. -/
theorem classify_bls_results_nondict_raises :
    classifyResult "bls" (some 200) (Json.obj [("Results", Json.num 5)]) none =
      Except.error PyErr.attributeError := rfl

/-- C9 fails on the code: the classifier is not total — for a `bls` payload
whose first `Results.series` element is not a dict, `_classify_result`
raises `AttributeError` (from `series[0].get("data", [])`). -/
theorem classify_bls_series_element_nondict_raises :
    classifyResult "bls" (some 200)
      (Json.obj [("Results", Json.obj [("series", Json.arr [Json.num 1])])]) none =
      Except.error PyErr.attributeError := rfl

/-- C6 fails on the code: an adapter behaviour returning a 2xx `bls` payload
whose `Results` value is not a dict makes `_classify_result` raise inside the
year loop (it is called outside the `try` block), aborting `download_dataset`
for all years instead of being captured and classified. -/
theorem download_dataset_bls_malformed_aborts :
    downloadDataset "g" "d" "bls" "id"
      (fun _ => AdapterOutcome.triple (Json.obj [("Results", Json.str "nope")])
        (Json.obj []) (some 200)) =
      Except.error PyErr.attributeError := rfl

/-- A completed response with status 503 makes the attempt body raise the
corresponding `RetryableRequestError`. -/
theorem singleAttempt_503 (call : Nat → HttpOutcome) (i : Nat)
    (h : ∃ r, call i = HttpOutcome.resp r ∧ r.statusCode = 503) :
    singleAttempt call i =
      Except.error (Exc.retryable "retryable status code 503" (some 503)) := by
  obtain ⟨r, hc, hs⟩ := h
  simp only [singleAttempt, hc, hs]
  rw [if_pos (show (503 : Int) ∈ RETRYABLE_STATUS_CODES by decide)]
  rfl

/-- When every attempt raises the same retryable 503 error, the retry loop
with `n + 1` attempts left executes exactly `n + 1` attempts and re-raises
that error. -/
theorem retryLoopCounted_all_503 (call : Nat → HttpOutcome)
    (h : ∀ i, singleAttempt call i =
      Except.error (Exc.retryable "retryable status code 503" (some 503))) :
    ∀ n i, retryLoopCounted call i (n + 1) =
      (Except.error (Exc.retryable "retryable status code 503" (some 503)), n + 1) := by
  intro n
  induction n with
  | zero =>
    intro i
    rw [retryLoopCounted, h i]
    simp [isRetryableExcType]
  | succ k ih =>
    intro i
    rw [retryLoopCounted, h i]
    simp [isRetryableExcType, ih (i + 1)]

/-- C1: if every attempt of the wrapped HTTP call completes with a
retryable status 503 (which the wrapper turns into a
`RetryableRequestError`), `_request_with_retries` executes the attempt
body exactly 6 times and then re-raises the last `RetryableRequestError`
to the caller instead of swallowing it or returning a response. -/
theorem request_with_retries_exhausts_503 (call : Nat → HttpOutcome)
    (h : ∀ i, ∃ r, call i = HttpOutcome.resp r ∧ r.statusCode = 503) :
    requestAttemptCount call = 6 ∧
    requestWithRetries call =
      Except.error (Exc.retryable "retryable status code 503" (some 503)) := by
  have hs : ∀ i, singleAttempt call i =
      Except.error (Exc.retryable "retryable status code 503" (some 503)) :=
    fun i => singleAttempt_503 call i (h i)
  have hl := retryLoopCounted_all_503 call hs 5 0
  constructor
  · show (retryLoopCounted call 0 MAX_ATTEMPTS).2 = 6
    rw [show MAX_ATTEMPTS = 5 + 1 from rfl, hl]
  · show (retryLoopCounted call 0 MAX_ATTEMPTS).1 =
      Except.error (Exc.retryable "retryable status code 503" (some 503))
    rw [show MAX_ATTEMPTS = 5 + 1 from rfl, hl]

/-- C1 witness: the always-503 call is attempted 6 times and the last
retryable error is re-raised. -/
theorem request_with_retries_exhausts_503_witness :
    requestAttemptCount wCall503 = 6 ∧
    requestWithRetries wCall503 =
      Except.error (Exc.retryable "retryable status code 503" (some 503)) :=
  request_with_retries_exhausts_503 wCall503 (fun _ => ⟨⟨503, Json.null⟩, rfl, rfl⟩)

/-- C5: two consecutive completions of `_throttle` for the same source type
are separated by at least `min_delay(source_type)` on the monotonic clock
(the recorded timestamp is the completion clock value); a throttle call for
a different source type leaves this source type's timestamp untouched; the
sleep depends only on this source type's own timestamp and the clock; and
the per-source minimum delays are 0.6 (fred), 0.8 (bls), 1.6 (coingecko),
1.2 (oecd), 0.8 (ecb), 0.8 (census), 1.0 (imf) and 0.6 for unknown source
types. -/
theorem throttle_spec :
    (∀ (st : String) (s : ThrottleState) (pre post t0 : ℚ),
      0 ≤ pre → 0 ≤ post → assocLookup s.lastRequestTs st = some t0 → t0 ≤ s.clock →
      t0 + minDelayFor st ≤ (throttle st s pre post).clock ∧
      assocLookup (throttle st s pre post).lastRequestTs st =
        some (throttle st s pre post).clock)
    ∧ (∀ (st st' : String) (s : ThrottleState) (pre post : ℚ), st' ≠ st →
      assocLookup (throttle st' s pre post).lastRequestTs st =
        assocLookup s.lastRequestTs st)
    ∧ (∀ (st : String) (s s' : ThrottleState) (pre : ℚ), s.clock = s'.clock →
      assocLookup s.lastRequestTs st = assocLookup s'.lastRequestTs st →
      throttleSleep st s pre = throttleSleep st s' pre)
    ∧ (minDelayFor "fred" = 3/5 ∧ minDelayFor "bls" = 4/5 ∧
       minDelayFor "coingecko" = 8/5 ∧ minDelayFor "oecd" = 6/5 ∧
       minDelayFor "ecb" = 4/5 ∧ minDelayFor "census" = 4/5 ∧ minDelayFor "imf" = 1 ∧
       ∀ st, st ∉ supportedSources → minDelayFor st = 3/5) := by
  refine ⟨?_, ?_, ?_, ?_⟩
  · intro st s pre post t0 hpre hpost hlook hle
    constructor
    · show t0 + minDelayFor st ≤ s.clock + pre + throttleSleep st s pre + post
      simp only [throttleSleep, hlook]
      split
      · linarith
      · rename_i hge
        have := not_lt.mp hge
        linarith
    · exact assocLookup_update_self s.lastRequestTs st _
  · intro st st' s pre post hne
    exact assocLookup_update_other s.lastRequestTs st' st _ hne.symm
  · intro st s s' pre hclock hlook
    simp only [throttleSleep, hclock, hlook]
  · refine ⟨rfl, rfl, rfl, rfl, rfl, rfl, rfl, ?_⟩
    intro st hst
    simp only [supportedSources, List.mem_cons, List.not_mem_nil, or_false] at hst
    push_neg at hst
    obtain ⟨h1, h2, h3, h4, h5, h6, h7⟩ := hst
    simp only [minDelayFor, rateLimitSeconds, assocLookup]
    rw [if_neg (fun hh => h1 hh.symm), if_neg (fun hh => h2 hh.symm),
      if_neg (fun hh => h3 hh.symm), if_neg (fun hh => h4 hh.symm),
      if_neg (fun hh => h5 hh.symm), if_neg (fun hh => h6 hh.symm),
      if_neg (fun hh => h7 hh.symm)]
    rfl

/-- C5 witness: a second `fred` call from a state last stamped at 9 with
clock 10 completes no earlier than 9 + 0.6 and records the completion time. -/
theorem throttle_spec_witness :
    (9 : ℚ) + minDelayFor "fred" ≤ (throttle "fred" ⟨10, [("fred", 9)]⟩ 0 0).clock ∧
    assocLookup (throttle "fred" ⟨10, [("fred", 9)]⟩ 0 0).lastRequestTs "fred" =
      some (throttle "fred" ⟨10, [("fred", 9)]⟩ 0 0).clock :=
  throttle_spec.1 "fred" ⟨10, [("fred", 9)]⟩ 0 0 9 (le_refl 0) (le_refl 0) rfl (by norm_num)

/-- C7: `_set_period_params` rewrites `startPeriod`/`endPeriod` according to
the granularity of the existing `startPeriod` template — `-Q` templates get
`{year}-Q1`/`{year}-Q4`, `-M` templates get `{year}-M01`/`{year}-M12`,
anything else the bare year — while every other URL component and every
other query parameter is preserved; in particular a URL with
`startPeriod=2015-Q1` rewritten for 2021 carries
`startPeriod=2021-Q1&endPeriod=2021-Q4`. -/
theorem set_period_params_rewrite (u : UrlParts) (year : Nat)
    (_hwf : ∀ p ∈ u.query, p.2 ≠ []) :
    (strContains (startTemplateOf u) "-Q" = true →
      assocLookup (setPeriodParams u year).query "startPeriod" =
        some [toString year ++ "-Q1"] ∧
      assocLookup (setPeriodParams u year).query "endPeriod" =
        some [toString year ++ "-Q4"])
    ∧ (strContains (startTemplateOf u) "-Q" = false →
       strContains (startTemplateOf u) "-M" = true →
      assocLookup (setPeriodParams u year).query "startPeriod" =
        some [toString year ++ "-M01"] ∧
      assocLookup (setPeriodParams u year).query "endPeriod" =
        some [toString year ++ "-M12"])
    ∧ (strContains (startTemplateOf u) "-Q" = false →
       strContains (startTemplateOf u) "-M" = false →
      assocLookup (setPeriodParams u year).query "startPeriod" = some [toString year] ∧
      assocLookup (setPeriodParams u year).query "endPeriod" = some [toString year])
    ∧ ((setPeriodParams u year).scheme = u.scheme ∧
       (setPeriodParams u year).netloc = u.netloc ∧
       (setPeriodParams u year).path = u.path ∧
       (setPeriodParams u year).paramsPart = u.paramsPart ∧
       (setPeriodParams u year).fragment = u.fragment)
    ∧ (∀ k, k ≠ "startPeriod" → k ≠ "endPeriod" →
      assocLookup (setPeriodParams u year).query k = assocLookup u.query k)
    ∧ setPeriodParams wOecdUrl 2021 =
      ⟨"https", "sdmx.oecd.org", "/public/rest/data/QNA", "", "",
        [("startPeriod", ["2021-Q1"]), ("dimensionAtObservation", ["AllDimensions"]),
         ("endPeriod", ["2021-Q4"])]⟩ := by
  refine ⟨?_, ?_, ?_, ⟨rfl, rfl, rfl, rfl, rfl⟩, ?_, rfl⟩
  · intro hq
    simp only [setPeriodParams, hq, if_true]
    exact ⟨by rw [assocLookup_update_other _ _ _ _ (by decide), assocLookup_update_self],
      assocLookup_update_self _ _ _⟩
  · intro hq hm
    simp only [setPeriodParams, hq, hm, Bool.false_eq_true, if_false, if_true]
    exact ⟨by rw [assocLookup_update_other _ _ _ _ (by decide), assocLookup_update_self],
      assocLookup_update_self _ _ _⟩
  · intro hq hm
    simp only [setPeriodParams, hq, hm, Bool.false_eq_true, if_false]
    exact ⟨by rw [assocLookup_update_other _ _ _ _ (by decide), assocLookup_update_self],
      assocLookup_update_self _ _ _⟩
  · intro k hks hke
    simp only [setPeriodParams]
    split
    · rw [assocLookup_update_other _ _ _ _ hke, assocLookup_update_other _ _ _ _ hks]
    · split
      · rw [assocLookup_update_other _ _ _ _ hke, assocLookup_update_other _ _ _ _ hks]
      · rw [assocLookup_update_other _ _ _ _ hke, assocLookup_update_other _ _ _ _ hks]

/-- C7 witness: the quarterly OECD URL fixture rewritten for 2021. -/
theorem set_period_params_rewrite_witness :
    assocLookup (setPeriodParams wOecdUrl 2021).query "startPeriod" = some ["2021-Q1"] ∧
    assocLookup (setPeriodParams wOecdUrl 2021).query "endPeriod" = some ["2021-Q4"] :=
  (set_period_params_rewrite wOecdUrl 2021 (by decide)).1 rfl

/-- One successful year iteration preserves the summary invariant and
appends exactly that year to the per-year trace. -/
theorem processYear_inv (sourceType : String) (beh : Nat → AdapterOutcome) (meta : Metadata)
    (year : Nat) (acc acc' : Summary × List WriteEvent)
    (h : processYear sourceType beh meta year acc = Except.ok acc')
    (hs : summaryInv acc.1) :
    summaryInv acc'.1 ∧
      acc'.1.years.map YearStatusEntry.year =
        acc.1.years.map YearStatusEntry.year ++ [year] := by
  cases hc : classifyResult sourceType (adapterInvoke beh year).2.2.1
      (adapterInvoke beh year).1 (adapterInvoke beh year).2.2.2 with
  | error e =>
    simp only [processYear, hc] at h
    exact Except.noConfusion h
  | ok result =>
    simp only [processYear, hc, Except.ok.injEq] at h
    subst h
    obtain ⟨i1, i2, i3, i4⟩ := hs
    by_cases hst : result.status = "ok"
    · rw [if_pos hst]
      refine ⟨⟨?_, ?_, ?_, ?_⟩, ?_⟩
      · simp only [List.length_append, List.length_cons, List.length_nil]
        omega
      · exact i2
      · simp [List.filter_append, hst, i3]
      · simp [List.filter_append, hst, i4]
      · simp
    · rw [if_neg hst]
      have hbne : (result.status != "ok") = true := by
        simp [bne_iff_ne, hst]
      have hbeq : (result.status == "ok") = false := by
        simp [hst]
      refine ⟨⟨?_, ?_, ?_, ?_⟩, ?_⟩
      · simp only [List.length_append, List.length_cons, List.length_nil]
        omega
      · simp [i2]
      · simp [List.filter_append, hbne, i3]
      · simp [List.filter_append, hbeq, i4]
      · simp

/-- A successful run over a list of years preserves the invariant and
appends exactly those years to the per-year trace. -/
theorem runYears_inv (sourceType : String) (beh : Nat → AdapterOutcome) (meta : Metadata) :
    ∀ (ys : List Nat) (acc final : Summary × List WriteEvent),
      runYears sourceType beh meta ys acc = Except.ok final →
      summaryInv acc.1 →
      summaryInv final.1 ∧
        final.1.years.map YearStatusEntry.year =
          acc.1.years.map YearStatusEntry.year ++ ys := by
  intro ys
  induction ys with
  | nil =>
    intro acc final h hs
    simp only [runYears, Except.ok.injEq] at h
    subst h
    exact ⟨hs, by simp⟩
  | cons y ys ih =>
    intro acc final h hs
    cases hp : processYear sourceType beh meta y acc with
    | error e =>
      simp only [runYears, hp] at h
      exact Except.noConfusion h
    | ok acc1 =>
      simp only [runYears, hp] at h
      obtain ⟨hinv1, htrace1⟩ := processYear_inv sourceType beh meta y acc acc1 hp hs
      obtain ⟨hinv, htrace⟩ := ih acc1 final h hinv1
      refine ⟨hinv, ?_⟩
      rw [htrace, htrace1]
      simp

/-- C10: every summary returned by `download_dataset` satisfies
`totals.ok + totals.error = |years| = 32`, the per-year entries appear in
ascending order one per year 1995..2026, and the error list has exactly
`totals.error` entries, one per year whose classification is not "ok",
while `totals.ok` counts the ok years. -/
theorem download_dataset_summary_invariants
    (group datasetName sourceType datasetId : String) (beh : Nat → AdapterOutcome)
    (s : Summary) (ws : List WriteEvent)
    (h : downloadDataset group datasetName sourceType datasetId beh = Except.ok (s, ws)) :
    s.totals.ok + s.totals.error = s.years.length ∧
    s.years.length = 32 ∧
    s.years.map YearStatusEntry.year = yearRange ∧
    List.Pairwise (· < ·) (s.years.map YearStatusEntry.year) ∧
    s.errors.length = s.totals.error ∧
    s.errors.map ErrorEntry.year =
      (s.years.filter (fun e => e.status != "ok")).map YearStatusEntry.year ∧
    s.totals.ok = (s.years.filter (fun e => e.status == "ok")).length := by
  by_cases hsup : sourceType ∈ supportedSources
  case neg =>
    simp only [downloadDataset, hsup, if_false] at h
    exact Except.noConfusion h
  simp only [downloadDataset, hsup, if_true] at h
  cases hr : runYears sourceType beh
      ⟨group, datasetName, sourceType, datasetId, START_YEAR, END_YEAR⟩ yearRange
      (initialSummary ⟨group, datasetName, sourceType, datasetId, START_YEAR, END_YEAR⟩, [])
    with
  | error e =>
    rw [hr] at h
    exact Except.noConfusion h
  | ok p =>
    obtain ⟨s0, ws0⟩ := p
    rw [hr] at h
    simp only [Except.ok.injEq, Prod.mk.injEq] at h
    obtain ⟨hs0, hws0⟩ := h
    subst hs0
    have hinit : summaryInv
        (initialSummary ⟨group, datasetName, sourceType, datasetId, START_YEAR, END_YEAR⟩) :=
      ⟨rfl, rfl, rfl, rfl⟩
    obtain ⟨⟨i1, i2, i3, i4⟩, htrace⟩ := runYears_inv sourceType beh _ yearRange _ _ hr hinit
    simp only [initialSummary, List.map_nil, List.nil_append] at htrace
    refine ⟨i1, ?_, htrace, ?_, i2, i3, i4⟩
    · have := congrArg List.length htrace
      simpa using this
    · rw [htrace]
      decide

/-- C10 witness: a concrete run (every year raising a transport error)
returns a summary, and that summary satisfies the counting invariants. -/
theorem download_dataset_summary_invariants_witness :
    downloadDataset "economy" "us_gdp" "fred" "GDP" wBehRaise =
      Except.ok (wSummary, wWrites) ∧
    wSummary.years.length = 32 ∧
    wSummary.totals.ok + wSummary.totals.error = 32 := by
  have heq : downloadDataset "economy" "us_gdp" "fred" "GDP" wBehRaise =
      Except.ok (wSummary, wWrites) := rfl
  have hinv := download_dataset_summary_invariants "economy" "us_gdp" "fred" "GDP"
    wBehRaise wSummary wWrites heq
  exact ⟨heq, hinv.2.1, hinv.1.trans hinv.2.1⟩

/-- The code's `isinstance(obs, list) and len(obs) == 0` on a `.get(k)`
lookup equals the claim's "present and an empty list" condition. -/
theorem jsonIsEmptyList_getD_null (o : Option Json) :
    jsonIsEmptyList (o.getD Json.null) = isPresentEmptyList o := by
  rcases o with _ | v
  · rfl
  · cases v with
    | arr items => cases items <;> rfl
    | null => rfl
    | bool b => rfl
    | num n => rfl
    | str s => rfl
    | obj fields => rfl

/-- The code's emptiness test on `series[0].get("data", [])` equals the
claim's "first series element's `data` list is empty" condition. -/
theorem jsonIsEmptyList_getD_arr (sfields : List (String × Json)) :
    jsonIsEmptyList ((assocLookup sfields "data").getD (Json.arr [])) =
      isDataEmptyAt sfields := by
  rcases h : assocLookup sfields "data" with _ | v <;> simp [isDataEmptyAt, h, jsonIsEmptyList]

/-- On every payload where the bls field accesses do not raise,
`_is_no_data_response` returns exactly the claim's per-source empty
heuristic. -/
theorem isNoDataResponse_safe_eq (sourceType : String) (payload : Json)
    (hsafe : blsAccessSafe sourceType payload = true) :
    isNoDataResponse sourceType payload =
      Except.ok (specEmptyHeuristic sourceType payload) := by
  by_cases h1 : sourceType = "fred"
  · subst h1
    cases payload <;>
      simp [isNoDataResponse, specEmptyHeuristic, jGetD, jsonIsEmptyList_getD_null]
  by_cases h2 : sourceType = "bls"
  · subst h2
    cases payload with
    | obj fields =>
      rcases hr : assocLookup fields "Results" with _ | v
      · simp [isNoDataResponse, specEmptyHeuristic, jGetD, hr, pyGet, assocLookup, jsonFalsy]
      · cases v with
        | obj rfields =>
          rcases hs : assocLookup rfields "series" with _ | series
          · simp [isNoDataResponse, specEmptyHeuristic, jGetD, hr, hs, pyGet, jsonFalsy]
          · by_cases hf : jsonFalsy series = true
            · simp [isNoDataResponse, specEmptyHeuristic, jGetD, hr, hs, pyGet, hf]
            · have hf' : jsonFalsy series = false := by simpa using hf
              simp only [blsAccessSafe, if_pos rfl, jGetD, hr, hs, Option.getD_some,
                hf', Bool.false_eq_true, if_false] at hsafe
              cases series with
              | arr items =>
                cases items with
                | nil => simp at hsafe
                | cons hd tl =>
                  cases hd with
                  | obj sfields =>
                    simp [isNoDataResponse, specEmptyHeuristic, jGetD, hr, hs, pyGet,
                      hf', pyIndex0, jsonIsEmptyList_getD_arr]
                  | null => simp at hsafe
                  | bool b => simp at hsafe
                  | num n => simp at hsafe
                  | str s => simp at hsafe
                  | arr xs => simp at hsafe
              | null => simp at hsafe
              | bool b => simp at hsafe
              | num n => simp at hsafe
              | str s => simp at hsafe
              | obj ofields => simp at hsafe
        | null => simp [blsAccessSafe, jGetD, hr] at hsafe
        | bool b => simp [blsAccessSafe, jGetD, hr] at hsafe
        | num n => simp [blsAccessSafe, jGetD, hr] at hsafe
        | str s => simp [blsAccessSafe, jGetD, hr] at hsafe
        | arr xs => simp [blsAccessSafe, jGetD, hr] at hsafe
    | null => rfl
    | bool b => rfl
    | num n => rfl
    | str s => rfl
    | arr items => rfl
  by_cases h3 : sourceType = "coingecko"
  · subst h3
    cases payload <;>
      simp [isNoDataResponse, specEmptyHeuristic, jGetD, jsonIsEmptyList_getD_null]
  by_cases h4 : sourceType = "census"
  · subst h4
    cases payload <;> simp [isNoDataResponse, specEmptyHeuristic]
  · simp [isNoDataResponse, specEmptyHeuristic, h1, h2, h3, h4]

/-- C3 (amended): for every source_type and every payload on which the bls
field accesses do not raise (the restriction forced by the
`classify_bls_results_nondict_raises` counterexample), when no exception is
captured and 200 ≤ status_code < 300, `_classify_result` returns
{error, no_data_in_range, accept_or_change_time_range} exactly when the
per-source empty heuristic holds — fred: `observations` present and an
empty list; bls: `Results.series` missing or empty (the code's truthiness
test), or the first series element's `data` list empty; coingecko: `prices`
present and an empty list; census: a list of length ≤ 1; oecd, ecb, imf:
never — and otherwise returns {ok, "", none, Success}. -/
theorem classify_2xx_empty_heuristic (sourceType : String) (payload : Json) (c : Int)
    (h2xx : 200 ≤ c ∧ c < 300) (hsafe : blsAccessSafe sourceType payload = true) :
    classifyResult sourceType (some c) payload none =
      Except.ok
        (if specEmptyHeuristic sourceType payload then
          ⟨"error", "no_data_in_range", "accept_or_change_time_range",
            "Request succeeded but the API returned no data for this year."⟩
         else ⟨"ok", "", "none", "Success"⟩) := by
  simp only [classifyResult, if_pos h2xx, isNoDataResponse_safe_eq sourceType payload hsafe,
    apply_ite Except.ok]

/-- C3 witness: a fred empty-observations payload classifies as
`no_data_in_range`, and a census response with two rows as ok. -/
theorem classify_2xx_empty_heuristic_witness :
    classifyResult "fred" (some 200) (Json.obj [("observations", Json.arr [])]) none =
      Except.ok ⟨"error", "no_data_in_range", "accept_or_change_time_range",
        "Request succeeded but the API returned no data for this year."⟩ ∧
    classifyResult "census" (some 200)
      (Json.arr [Json.arr [Json.str "NAME"], Json.arr [Json.str "California"]]) none =
      Except.ok ⟨"ok", "", "none", "Success"⟩ := by
  constructor
  · exact (classify_2xx_empty_heuristic "fred" (Json.obj [("observations", Json.arr [])])
      200 (by decide) rfl).trans (by rfl)
  · exact (classify_2xx_empty_heuristic "census"
      (Json.arr [Json.arr [Json.str "NAME"], Json.arr [Json.str "California"]])
      200 (by decide) rfl).trans (by rfl)
